import Mathlib

/-!
Shallow embedding of the wp-integration message gateway.

Embedded source files:
* services/message_queue.py  (RabbitMQService)
* services/scheduler.py      (MessageScheduler)
* services/message_consumer.py
* routes/scheduled_messages.py (schedule / cancel routes)
* routes/messages.py and routes/clients.py (immediate send routes)
* database/models.py          (column defaults)

Database tables are lists of records; datetime columns are
order-preserving natural-number keys (plus, for the schedule route, an
optional UTC offset, since Python refuses to compare offset-naive and
offset-aware datetimes); every external effect (queue connect/publish,
provider API call) is an explicit outcome parameter.
-/

namespace WP

/-- A ScheduledMessage row (database/models.py, class ScheduledMessage).
Nullable columns are Option; datetime columns are order-preserving keys. -/
structure SRow where
  id : String
  tenant_id : String
  whatsapp_account_id : Option String
  to_number : String
  message : String
  message_type : String
  scheduled_at : Nat
  timezone : String
  status : String
  sent_at : Option Nat
  attempts : Nat
  max_attempts : Nat
  error_message : Option String
  last_attempt_at : Option Nat
deriving DecidableEq, Repr

/-- State of the RabbitMQService singleton (services/message_queue.py):
the `is_connected` flag, whether `self.connection` is non-None and open,
and whether `self.channel` is usable. -/
structure QState where
  is_connected : Bool
  connection_open : Bool
  has_channel : Bool
deriving DecidableEq, Repr

/-- Outcomes of the queue service's external effects: whether a
(re)connect attempt sequence ends with a live connection and declared
queues, and whether `channel.basic_publish` raises on a live channel. -/
structure QEnv where
  connectOk : Bool
  publishRaises : Bool
deriving DecidableEq, Repr

/-- RabbitMQService.connect: on success the connection, channel and queues
are set up and `is_connected := True`; when the retries are exhausted the
method only sets `is_connected := False` (every exception is caught, so
connect itself never raises). -/
def RabbitMQService.connect (env : QEnv) (s : QState) : QState :=
  if env.connectOk then { is_connected := true, connection_open := true, has_channel := true }
  else { s with is_connected := false }

/-- RabbitMQService.ensure_connection: reconnect when the flag is down or
the connection object is missing or closed. -/
def RabbitMQService.ensure_connection (env : QEnv) (s : QState) : QState :=
  if !s.is_connected || !s.connection_open then RabbitMQService.connect env s else s

/-- RabbitMQService.send_message (services/message_queue.py lines 58-79):
`ensure_connection`, then `channel.basic_publish`; any exception in the
body — including `self.channel` still being None — is caught, sets
`is_connected := False` and returns False.  The source returns a plain
boolean in every case, which the embedding reflects by the codomain
`Bool × QState` (no error case). -/
def RabbitMQService.send_message (env : QEnv) (s : QState) : Bool × QState :=
  let s1 := RabbitMQService.ensure_connection env s
  if s1.has_channel && !env.publishRaises then (true, s1)
  else (false, { s1 with is_connected := false })

/-- The eligibility filter of MessageScheduler.process_due_messages
(services/scheduler.py lines 41-47): `scheduled_at <= now`,
`status IN ('scheduled', 'failed')` and `attempts < max_attempts`. -/
def eligible (now : Nat) (r : SRow) : Bool :=
  decide (r.scheduled_at ≤ now)
    && (r.status == "scheduled" || r.status == "failed")
    && decide (r.attempts < r.max_attempts)

/-- The batch of rows claimed by one poll cycle at time `now`: the result
set of the filtered query in process_due_messages. -/
def due_messages (db : List SRow) (now : Nat) : List SRow :=
  db.filter (eligible now)

/-- MessageScheduler.process_single_message (services/scheduler.py lines
63-108).  The claim step sets status `processing`, increments `attempts`
and stamps `last_attempt_at`.  `account` is the result of the
active-WhatsAppAccount query: `none` raises "No active WhatsApp account
found", which the except branch turns into status `failed` with
`error_message` set (then `permanently_failed` once
`attempts >= max_attempts`).  When an account exists, the boolean result
of the queue publish is discarded exactly as in the source (line 92), and
the row is marked `sent` with `sent_at := now`. -/
def process_single_message (r : SRow) (now : Nat) (account : Option String)
    (env : QEnv) (qs : QState) : SRow × QState :=
  let r1 : SRow :=
    { r with status := "processing", attempts := r.attempts + 1,
             last_attempt_at := some now }
  match account with
  | some _ =>
    let q := RabbitMQService.send_message env qs
    ({ r1 with status := "sent", sent_at := some now }, q.2)
  | none =>
    let r2 : SRow :=
      { r1 with status := "failed",
                error_message := some "No active WhatsApp account found" }
    if r2.max_attempts ≤ r2.attempts then
      ({ r2 with status := "permanently_failed" }, qs)
    else (r2, qs)

/-- Row built by the schedule route (routes/scheduled_messages.py lines
76-85) with the column defaults of database/models.py: status
"scheduled", attempts 0, max_attempts 3, all nullable columns NULL. -/
def newScheduledRow (id tenant_id account_id toNumber message message_type : String)
    (scheduled_at : Nat) (tz : String) : SRow :=
  { id := id, tenant_id := tenant_id, whatsapp_account_id := some account_id,
    to_number := toNumber, message := message, message_type := message_type,
    scheduled_at := scheduled_at, timezone := tz, status := "scheduled",
    sent_at := none, attempts := 0, max_attempts := 3,
    error_message := none, last_attempt_at := none }

/-- ScheduledMessage row states reachable through the system's own
operations: creation by the schedule route, a poll-cycle claim and
dispatch of an eligible row (process_due_messages filters with `eligible`
before every call of process_single_message), and the cancel route's
update of a still-scheduled row. -/
inductive ReachableRow : SRow → Prop where
  | created (id tenant_id account_id toNumber message message_type : String)
      (scheduled_at : Nat) (tz : String) :
      ReachableRow (newScheduledRow id tenant_id account_id toNumber message
        message_type scheduled_at tz)
  | claimed (r : SRow) (now : Nat) (account : Option String)
      (env : QEnv) (qs : QState) :
      ReachableRow r → eligible now r = true →
      ReachableRow (process_single_message r now account env qs).1
  | cancelRoute (r : SRow) :
      ReachableRow r → r.status = "scheduled" →
      ReachableRow { r with status := "cancelled" }

/-- Error result of a FastAPI route: a raised HTTPException. -/
structure HTTPError where
  status_code : Nat
  detail : String
deriving DecidableEq, Repr

/-- Replace the first row satisfying `p`: SQLAlchemy's `.first()` result
is the single object mutated in place before commit. -/
def updateFirst {α : Type} (p : α → Bool) (f : α → α) : List α → List α
  | [] => []
  | r :: rs => if p r then f r :: rs else r :: updateFirst p f rs

/-- cancel_scheduled_message (routes/scheduled_messages.py lines
149-185): look up the row by id and authenticated tenant (404 when
absent), raise 400 when its status is not `scheduled`, otherwise set
status `cancelled` and commit.  The table is returned unchanged on every
error path (the mutation only happens after both checks). -/
def cancel_scheduled_message (tenantId msgId : String) (db : List SRow) :
    Except HTTPError Unit × List SRow :=
  match db.find? (fun r => r.id == msgId && r.tenant_id == tenantId) with
  | none => (.error ⟨404, "Scheduled message not found"⟩, db)
  | some r =>
    if !(r.status == "scheduled") then
      (.error ⟨400, "Only scheduled messages can be cancelled"⟩, db)
    else
      (.ok (), updateFirst (fun x => x.id == msgId && x.tenant_id == tenantId)
        (fun x => { x with status := "cancelled" }) db)

/-- A Message row (database/models.py, class Message), restricted to the
columns the embedded routes read or write. -/
structure MRow where
  id : String
  tenant_id : String
  whatsapp_account_id : String
  from_number : String
  to_number : String
  content : String
  message_type : String
  direction : String
  status : String
  wamid : Option String
  template_name : Option String
  error_message : Option String
deriving DecidableEq, Repr

/-- Python `a or b` on optional strings: None and the empty string are
falsy, so `d.get('to') or d.get('to_number')` yields the first
non-empty present value. -/
def pyOr (a b : Option String) : Option String :=
  match a with
  | some s => if s == "" then b else some s
  | none => b

/-- Python truthiness of an optional string. -/
def truthy (a : Option String) : Bool :=
  match a with
  | some s => !(s == "")
  | none => false

/-- The fields of the queue payload dict that process_outgoing_message
reads with `.get` (each may be absent); `toField` stands for the dict
key 'to'. -/
structure QueueMsg where
  toField : Option String
  to_number : Option String
  message : Option String
  content : Option String
deriving DecidableEq, Repr

/-- process_outgoing_message (services/message_consumer.py lines 12-85):
extract recipient and content with Python `or` fallbacks (missing or
empty → return False); the hardcoded credentials are non-empty so the
credential guard never fires; then POST to the provider.  `apiStatus =
some code` is the HTTP response status and `none` models a raised
exception, which the except branch turns into False.  Success is exactly
status 200.  The function opens no database session. -/
def process_outgoing_message (m : QueueMsg) (apiStatus : Option Nat) : Bool :=
  let to_number := pyOr m.toField m.to_number
  let message_content := pyOr m.message m.content
  if !truthy to_number || !truthy message_content then false
  else
    match apiStatus with
    | some code => code == 200
    | none => false

/-- What the consumer callback does with the broker delivery. -/
inductive ConsumerAction where
  | ack
  | nackNoRequeue
deriving DecidableEq, Repr

/-- process_consumer_message (services/message_consumer.py lines 87-105).
`body = none` models a payload json.loads cannot parse (the except branch
nacks without requeue).  The Message table is threaded through to record
the callback's effect on it: the source opens no database session here,
so the table passes through unchanged on every path. -/
def process_consumer_message (body : Option QueueMsg) (apiStatus : Option Nat)
    (db : List MRow) : ConsumerAction × List MRow :=
  match body with
  | none => (ConsumerAction.nackNoRequeue, db)
  | some m =>
    if process_outgoing_message m apiStatus then (ConsumerAction.ack, db)
    else (ConsumerAction.nackNoRequeue, db)

/-- A Python exception class relevant to the embedded routes. -/
inductive PyError where
  | typeError
deriving DecidableEq, Repr

/-- A Python datetime: an order-preserving key of its naive calendar
components plus its utcoffset in minutes (`none` = offset-naive).
`datetime.utcnow()` is always naive. -/
structure PyDateTime where
  key : Nat
  utcoffset : Option Int
deriving DecidableEq, Repr

/-- Order-preserving key of calendar components (lexicographic order of
(year, month, day, hour, minute, second) equals numeric order of the
key). -/
def mkKey (y mo d h mi s : Nat) : Nat :=
  s + 60 * (mi + 60 * (h + 24 * (d + 32 * (mo + 13 * y))))

/-- Python `a <= b` on datetimes: naive pairs compare by calendar, aware
pairs compare after subtracting the offset, and a mixed pair raises
TypeError ("can't compare offset-naive and offset-aware datetimes").
Only the naive/naive and mixed cases are exercised by the embedded
routes, since utcnow() is naive. -/
def pyLE (a b : PyDateTime) : Except PyError Bool :=
  match a.utcoffset, b.utcoffset with
  | none, none => .ok (decide (a.key ≤ b.key))
  | some oa, some ob =>
    .ok (decide ((a.key : Int) - oa * 60 ≤ (b.key : Int) - ob * 60))
  | _, _ => .error .typeError

/-- Numeric value of a decimal digit character. -/
def digitVal (c : Char) : Option Nat :=
  if c.isDigit then some (c.toNat - 48) else none

/-- Two decimal digits. -/
def parse2 : List Char → Option (Nat × List Char)
  | a :: b :: rest => do
    let x ← digitVal a
    let y ← digitVal b
    pure (x * 10 + y, rest)
  | _ => none

/-- Four decimal digits. -/
def parse4 (cs : List Char) : Option (Nat × List Char) := do
  let (hi, cs1) ← parse2 cs
  let (lo, cs2) ← parse2 cs1
  pure (hi * 100 + lo, cs2)

/-- Consume one expected character. -/
def expectChar (c : Char) : List Char → Option (List Char)
  | x :: rest => if x = c then some rest else none
  | _ => none

/-- Time-of-day part `HH:MM[:SS]`. -/
def parseTimePart (cs : List Char) : Option (Nat × Nat × Nat × List Char) := do
  let (h, cs1) ← parse2 cs
  let cs2 ← expectChar ':' cs1
  let (mi, cs3) ← parse2 cs2
  match expectChar ':' cs3 with
  | some cs4 => do
    let (sec, cs5) ← parse2 cs4
    if h ≤ 23 ∧ mi ≤ 59 ∧ sec ≤ 59 then pure (h, mi, sec, cs5) else none
  | none => if h ≤ 23 ∧ mi ≤ 59 then pure (h, mi, 0, cs3) else none

/-- UTC offset suffix `+HH:MM` or `-HH:MM`, in minutes. -/
def parseOffset (cs : List Char) : Option Int :=
  match cs with
  | sign :: rest =>
    if sign = '+' ∨ sign = '-' then do
      let (oh, cs1) ← parse2 rest
      let cs2 ← expectChar ':' cs1
      let (om, cs3) ← parse2 cs2
      if cs3 = [] ∧ oh ≤ 23 ∧ om ≤ 59 then
        let mins : Int := ((oh * 60 + om : Nat) : Int)
        pure (if sign = '-' then -mins else mins)
      else none
    else none
  | [] => none

/-- Modelled subset of datetime.fromisoformat: `YYYY-MM-DD`, optionally
followed by `T` or a space and `HH:MM[:SS]`, optionally followed by a UTC
offset `+HH:MM`/`-HH:MM`.  `none` models the ValueError raised on any
other shape or out-of-range component.  With an offset the result is
offset-aware, otherwise naive.  (Fractional seconds and exact per-month
day counts are outside the modelled subset; no theorem depends on
them.) -/
def fromisoformatChars (cs : List Char) : Option PyDateTime := do
  let (y, cs1) ← parse4 cs
  let cs2 ← expectChar '-' cs1
  let (mo, cs3) ← parse2 cs2
  let cs4 ← expectChar '-' cs3
  let (d, cs5) ← parse2 cs4
  if 1 ≤ mo ∧ mo ≤ 12 ∧ 1 ≤ d ∧ d ≤ 31 then
    match cs5 with
    | [] => pure { key := mkKey y mo d 0 0 0, utcoffset := none }
    | sep :: rest =>
      if sep = 'T' ∨ sep = ' ' then do
        let (h, mi, sec, cs6) ← parseTimePart rest
        match cs6 with
        | [] => pure { key := mkKey y mo d h mi sec, utcoffset := none }
        | _ => do
          let off ← parseOffset cs6
          pure { key := mkKey y mo d h mi sec, utcoffset := some off }
      else none
  else none

/-- Python str.replace('Z', '+00:00') over the character list (replaces
every occurrence, as str.replace does). -/
def replaceZ : List Char → List Char
  | [] => []
  | c :: rest =>
    if c = 'Z' then '+' :: '0' :: '0' :: ':' :: '0' :: '0' :: replaceZ rest
    else c :: replaceZ rest

/-- Response model of the schedule route. -/
structure ScheduleResponse where
  scheduled_message_id : String
  status : String
  scheduled_at : PyDateTime
deriving DecidableEq, Repr

/-- schedule_message (routes/scheduled_messages.py lines 39-106).  `now`
is datetime.utcnow() (always naive), `account` the active-WhatsAppAccount
query result, `newId` the generated primary key.  Control flow of the
source: parse with fromisoformat after replacing 'Z' with '+00:00'
(ValueError → 400, nothing persisted); evaluate `scheduled_time <=
datetime.utcnow()` — when the parsed value is offset-aware this raises
TypeError, which only the generic `except Exception` branch catches,
returning 500 with nothing persisted; a non-future time → 400; no active
account → 400; otherwise insert the row and echo id, status and the
stored scheduled time (isoformat of the row value). -/
def schedule_message (tenantId : String) (account : Option String)
    (toNumber message scheduled_at_str tz message_type : String)
    (now : Nat) (newId : String) (db : List SRow) :
    Except HTTPError ScheduleResponse × List SRow :=
  match fromisoformatChars (replaceZ scheduled_at_str.data) with
  | none =>
    (.error ⟨400, "Invalid datetime format. Use ISO format: YYYY-MM-DDTHH:MM:SS"⟩, db)
  | some scheduled_time =>
    match pyLE scheduled_time { key := now, utcoffset := none } with
    | .error _ => (.error ⟨500, "Message scheduling failed"⟩, db)
    | .ok true => (.error ⟨400, "Scheduled time must be in the future"⟩, db)
    | .ok false =>
      match account with
      | none => (.error ⟨400, "No active WhatsApp account configured"⟩, db)
      | some accountId =>
        let row := newScheduledRow newId tenantId accountId toNumber message
          message_type scheduled_time.key tz
        (.ok ⟨newId, "scheduled", scheduled_time⟩, db ++ [row])

/-- Response model of the immediate send route (routes/messages.py). -/
structure SendMessageResponse where
  message_id : String
  status : String
  wamid : Option String
deriving DecidableEq, Repr

/-- send_message (routes/messages.py lines 19-88): rate-limit check
(429), active-account lookup (400), insert a Message row with status
`queued`, publish to 'outgoing_messages' discarding the boolean result
(line 71), and respond `queued`.  The function never references the
delivery client: there is no fallback path, so a publish failure leaves
the row `queued`. -/
def routes_send_message (tenantId : String) (rateLimitOk : Bool)
    (account : Option (String × String)) (toNumber message message_type : String)
    (template_name : Option String) (newId : String)
    (env : QEnv) (qs : QState) (db : List MRow) :
    Except HTTPError SendMessageResponse × List MRow × QState :=
  if !rateLimitOk then (.error ⟨429, "Rate limit exceeded"⟩, db, qs)
  else
    match account with
    | none => (.error ⟨400, "No active WhatsApp account configured"⟩, db, qs)
    | some (accountId, phone) =>
      let message_record : MRow :=
        { id := newId, tenant_id := tenantId, whatsapp_account_id := accountId,
          from_number := phone, to_number := toNumber, content := message,
          message_type := message_type, direction := "outgoing",
          status := "queued", wamid := none, template_name := template_name,
          error_message := none }
      let db1 := db ++ [message_record]
      let q := RabbitMQService.send_message env qs
      (.ok ⟨newId, "queued", none⟩, db1, q.2)

/-- send_text_message (services/whatsapp_service.py lines 69-124) returns
a plain Bool: True exactly on an HTTP 200 response; any other status or a
raised exception (`apiStatus = none`) yields False. -/
def send_text_message (apiStatus : Option Nat) : Bool :=
  match apiStatus with
  | some code => code == 200
  | none => false

/-- Python subscription `b[k]` applied to a bool value always raises
TypeError ('bool' object is not subscriptable). -/
def pySubscriptBool (_b : Bool) (_k : String) : Except PyError Bool :=
  .error .typeError

/-- Response dict of the clients.py send route. -/
structure ClientSendResponse where
  message_id : String
  status : String
  queue : String
  rabbitmq : String
deriving DecidableEq, Repr

/-- send_message (routes/clients.py lines 45-139), from the creation of
the Message row onward: insert the row with status `queued`; when
`is_connected` holds, publish and, on success, respond `queued`;
otherwise fall through to the direct-send fallback, which calls
send_text_message (returning a Bool) and then evaluates
`result["success"]` (line 126) — subscripting a bool, which raises
TypeError before any status update, so the row stays `queued` and the
route errors out.  The continuation after the subscript (set `sent` or
`failed`, commit, respond) is embedded as written although it is
unreachable. -/
def clients_send_message (tenantId accountId phone : String)
    (toNumber message newId : String) (apiStatus : Option Nat)
    (env : QEnv) (qs : QState) (db : List MRow) :
    Except PyError ClientSendResponse × List MRow × QState :=
  let message_obj : MRow :=
    { id := newId, tenant_id := tenantId, whatsapp_account_id := accountId,
      from_number := phone, to_number := toNumber, content := message,
      message_type := "text", direction := "outbound", status := "queued",
      wamid := none, template_name := none, error_message := none }
  let db1 := db ++ [message_obj]
  let pub : Bool × QState :=
    if qs.is_connected then RabbitMQService.send_message env qs else (false, qs)
  if qs.is_connected && pub.1 then
    (.ok ⟨newId, "queued", "outgoing_messages", "connected"⟩, db1, pub.2)
  else
    let result : Bool := send_text_message apiStatus
    match pySubscriptBool result "success" with
    | .error e => (.error e, db1, pub.2)
    | .ok success =>
      let db2 := updateFirst (fun x => x.id == newId)
        (fun x => { x with status := if success then "sent" else "failed" }) db1
      (.ok ⟨newId, if success then "sent" else "failed", "direct", "disconnected"⟩,
        db2, pub.2)

/-- process_single_message always increments `attempts` by one and leaves
`max_attempts` unchanged, in every branch. -/
theorem process_single_message_attempts (r : SRow) (now : Nat)
    (account : Option String) (env : QEnv) (qs : QState) :
    (process_single_message r now account env qs).1.attempts = r.attempts + 1
      ∧ (process_single_message r now account env qs).1.max_attempts = r.max_attempts := by
  cases account
  · simp only [process_single_message]
    split <;> simp
  · simp [process_single_message]

/-- Unfolding of the eligibility filter into propositions. -/
theorem eligible_iff (now : Nat) (s : SRow) :
    eligible now s = true ↔
      s.scheduled_at ≤ now ∧ (s.status = "scheduled" ∨ s.status = "failed")
        ∧ s.attempts < s.max_attempts := by
  simp only [eligible, Bool.and_eq_true, Bool.or_eq_true, decide_eq_true_eq,
    beq_iff_eq]
  tauto

/-- updateFirst rewrites exactly the row find? locates, provided the
update keeps the predicate true. -/
theorem updateFirst_find (p : SRow → Bool) (f : SRow → SRow) (db : List SRow)
    (r : SRow) (hf : db.find? p = some r) (hp : p (f r) = true) :
    (updateFirst p f db).find? p = some (f r) := by
  induction db with
  | nil => simp at hf
  | cons a rest ih =>
    by_cases h : p a = true
    · rw [List.find?_cons_of_pos _ h] at hf
      injection hf with hf
      subst hf
      simp only [updateFirst, h, if_true]
      exact List.find?_cons_of_pos _ hp
    · rw [List.find?_cons_of_neg _ h] at hf
      have h' : p a = false := by
        cases hpa : p a
        · rfl
        · exact absurd hpa h
      simp only [updateFirst, h', Bool.false_eq_true, if_false]
      rw [List.find?_cons_of_neg _ h]
      exact ih hf

/-- Concrete due row for the C1 failing input. -/
def c1row : SRow := newScheduledRow "sm1" "t1" "wa1" "+15550001111" "hello" "text" 50 "UTC"

/-- C1 (code bug, failing input): a due row processed while the queue
publish fails — `RabbitMQService.send_message` returns False and flips
`is_connected` off, but scheduler.py line 92 discards that boolean — is
nevertheless marked `sent` with `sent_at` set and no `error_message`.
The claimed transition to `failed` with `error_message` on a publish
failure is unreachable, because `send_message` never raises. -/
theorem C1_publish_failure_still_marks_sent :
    (process_single_message c1row 100 (some "wa1") ⟨false, true⟩ ⟨true, true, true⟩).1.status = "sent"
    ∧ (process_single_message c1row 100 (some "wa1") ⟨false, true⟩ ⟨true, true, true⟩).1.sent_at = some 100
    ∧ (process_single_message c1row 100 (some "wa1") ⟨false, true⟩ ⟨true, true, true⟩).1.error_message = none
    ∧ (process_single_message c1row 100 (some "wa1") ⟨false, true⟩ ⟨true, true, true⟩).1.status ≠ "failed"
    ∧ (process_single_message c1row 100 (some "wa1") ⟨false, true⟩ ⟨true, true, true⟩).2.is_connected = false := by
  refine ⟨rfl, rfl, rfl, ?_, rfl⟩
  decide

/-- C2: a ScheduledMessage row is claimed by the poll cycle at time `now`
iff it is in the table with status `scheduled` or `failed`,
`scheduled_at ≤ now` and `attempts < max_attempts`; in particular a row
due exactly at `now` is eligible and a row scheduled in the future is
never claimed. -/
theorem C2_claim_iff (db : List SRow) (r : SRow) (now : Nat) :
    (r ∈ due_messages db now ↔
      r ∈ db ∧ (r.status = "scheduled" ∨ r.status = "failed")
        ∧ r.scheduled_at ≤ now ∧ r.attempts < r.max_attempts)
    ∧ (now < r.scheduled_at → r ∉ due_messages db now)
    ∧ (r ∈ db → r.scheduled_at = now →
        (r.status = "scheduled" ∨ r.status = "failed") →
        r.attempts < r.max_attempts → r ∈ due_messages db now) := by
  refine ⟨?_, ?_, ?_⟩
  · simp only [due_messages, List.mem_filter, eligible_iff]
    tauto
  · intro hfut hmem
    simp only [due_messages, List.mem_filter, eligible_iff] at hmem
    omega
  · intro hmem heq hst hat
    simp only [due_messages, List.mem_filter, eligible_iff]
    exact ⟨hmem, le_of_eq heq, hst, hat⟩

/-- Concrete row for the C2 witness, due exactly at the cycle time. -/
def c2row : SRow := newScheduledRow "sm2" "t2" "wa2" "+1" "hi" "text" 10 "UTC"

/-- Witness for C2 at the boundary input: a scheduled row whose
`scheduled_at` equals `now` is claimed. -/
theorem C2_claim_iff_witness : c2row ∈ due_messages [c2row] 10 :=
  (C2_claim_iff [c2row] c2row 10).2.2 (List.mem_singleton.mpr rfl) rfl
    (Or.inl rfl) (by decide)

/-- C3: when the dispatch of a claimed row fails — the only exception the
dispatch body can raise is "No active WhatsApp account found", since the
queue publish returns a bool — and the incremented attempts counter has
reached `max_attempts`, the row becomes `permanently_failed`; and a row
in status `permanently_failed` is never claimed by any poll cycle,
because the eligibility filter only admits `scheduled` and `failed`. -/
theorem C3_permanently_failed (r : SRow) (now : Nat) (env : QEnv) (qs : QState)
    (db : List SRow) (later : Nat) (s : SRow) :
    (r.max_attempts ≤ r.attempts + 1 →
      (process_single_message r now none env qs).1.status = "permanently_failed")
    ∧ (s.status = "permanently_failed" → s ∉ due_messages db later) := by
  constructor
  · intro h
    simp only [process_single_message]
    split
    · rfl
    · omega
  · intro hs hmem
    simp only [due_messages, List.mem_filter, eligible_iff, hs] at hmem
    rcases hmem.2.2.1 with h | h <;> simp at h

/-- Concrete row for the C3 witness: a failed row on its third and last
allowed attempt. -/
def c3row : SRow :=
  { newScheduledRow "sm3" "t3" "wa3" "+1" "hi" "text" 5 "UTC" with
      attempts := 2, status := "failed" }

/-- Concrete permanently failed row for the C3 witness. -/
def c3pfrow : SRow :=
  { newScheduledRow "sm3p" "t3" "wa3" "+1" "hi" "text" 5 "UTC" with
      status := "permanently_failed", attempts := 3 }

/-- Witness for C3: the concrete third failing attempt lands in
`permanently_failed`, and a concrete `permanently_failed` row is not
claimed by a later cycle. -/
theorem C3_permanently_failed_witness :
    (process_single_message c3row 9 none ⟨true, false⟩ ⟨true, true, true⟩).1.status
        = "permanently_failed"
    ∧ c3pfrow ∉ due_messages [c3pfrow] 1000 :=
  ⟨(C3_permanently_failed c3row 9 ⟨true, false⟩ ⟨true, true, true⟩ [] 0 c3row).1
      (by decide),
    (C3_permanently_failed c3pfrow 9 ⟨true, false⟩ ⟨true, true, true⟩ [c3pfrow] 1000
      c3pfrow).2 rfl⟩

/-- C5: the cancel route succeeds exactly when a row with the requested
id belongs to the authenticated tenant and is currently `scheduled`; on
success that row's status becomes `cancelled`; a row found in any other
status yields the 400 conflict error with the table unchanged; and an
absent or foreign row yields 404 with the table unchanged. -/
theorem C5_cancel_iff (tenantId msgId : String) (db : List SRow) :
    ((cancel_scheduled_message tenantId msgId db).1 = .ok () ↔
      ∃ r, db.find? (fun x => x.id == msgId && x.tenant_id == tenantId) = some r
        ∧ r.status = "scheduled")
    ∧ (∀ r, db.find? (fun x => x.id == msgId && x.tenant_id == tenantId) = some r →
        r.status ≠ "scheduled" →
        cancel_scheduled_message tenantId msgId db
          = (.error ⟨400, "Only scheduled messages can be cancelled"⟩, db))
    ∧ (∀ r, db.find? (fun x => x.id == msgId && x.tenant_id == tenantId) = some r →
        r.status = "scheduled" →
        (cancel_scheduled_message tenantId msgId db).1 = .ok ()
        ∧ (cancel_scheduled_message tenantId msgId db).2.find?
            (fun x => x.id == msgId && x.tenant_id == tenantId)
            = some { r with status := "cancelled" })
    ∧ (db.find? (fun x => x.id == msgId && x.tenant_id == tenantId) = none →
        cancel_scheduled_message tenantId msgId db
          = (.error ⟨404, "Scheduled message not found"⟩, db)) := by
  cases hf : db.find? (fun x => x.id == msgId && x.tenant_id == tenantId) with
  | none =>
    refine ⟨?_, ?_, ?_, ?_⟩
    · simp [cancel_scheduled_message, hf]
    · intro r hr
      exact absurd hr (by simp)
    · intro r hr
      exact absurd hr (by simp)
    · intro _
      simp [cancel_scheduled_message, hf]
  | some r0 =>
    by_cases hs : r0.status = "scheduled"
    · refine ⟨?_, ?_, ?_, ?_⟩
      · constructor
        · intro _
          exact ⟨r0, rfl, hs⟩
        · intro _
          simp [cancel_scheduled_message, hf, hs]
      · intro r hr hne
        injection hr with hr
        exact absurd (hr ▸ hs) hne
      · intro r hr hsch
        injection hr with hr
        subst hr
        constructor
        · simp [cancel_scheduled_message, hf, hsch]
        · have hpr := List.find?_some hf
          have := updateFirst_find
            (fun x : SRow => x.id == msgId && x.tenant_id == tenantId)
            (fun x => { x with status := "cancelled" }) db r0 hf hpr
          simpa [cancel_scheduled_message, hf, hsch] using this
      · intro hnone
        exact absurd hnone (by simp)
    · refine ⟨?_, ?_, ?_, ?_⟩
      · constructor
        · intro hok
          have hbeq : (r0.status == "scheduled") = false := by
            simpa using hs
          simp [cancel_scheduled_message, hf, hbeq] at hok
        · rintro ⟨r, hr, hsch⟩
          injection hr with hr
          exact absurd (hr ▸ hsch) hs
      · intro r hr _
        injection hr with hr
        subst hr
        have hbeq : (r0.status == "scheduled") = false := by
          simpa using hs
        simp [cancel_scheduled_message, hf, hbeq]
      · intro r hr hsch
        injection hr with hr
        exact absurd (hr ▸ hsch) hs
      · intro hnone
        exact absurd hnone (by simp)

/-- Concrete scheduled row for the C5 witness. -/
def c5row : SRow := newScheduledRow "sm5" "t5" "wa5" "+1" "hi" "text" 20 "UTC"

/-- Witness for C5: cancelling the concrete scheduled row succeeds and
the row ends up `cancelled`. -/
theorem C5_cancel_iff_witness :
    (cancel_scheduled_message "t5" "sm5" [c5row]).1 = .ok ()
    ∧ (cancel_scheduled_message "t5" "sm5" [c5row]).2.find?
        (fun x => x.id == "sm5" && x.tenant_id == "t5")
        = some { c5row with status := "cancelled" } :=
  (C5_cancel_iff "t5" "sm5" [c5row]).2.2.1 c5row (by decide) rfl

/-- Concrete Message table for the C4 counterexample: one queued row. -/
def c4db : List MRow :=
  [{ id := "m1", tenant_id := "t1", whatsapp_account_id := "wa1",
     from_number := "+1000", to_number := "+2000", content := "hello",
     message_type := "text", direction := "outgoing", status := "queued",
     wamid := none, template_name := none, error_message := none }]

/-- Concrete queue payload for the C4 counterexample. -/
def c4msg : QueueMsg :=
  { toField := none, to_number := some "+2000", message := none,
    content := some "hello" }

/-- C4 counterexample: a successfully delivered queue message (provider
answers HTTP 200) is acknowledged, but the corresponding Message row
keeps status `queued` with no provider message id — the update to `sent`
that the claim describes does not happen, because the consumer opens no
database session. -/
theorem C4_no_db_update_counterexample :
    (process_consumer_message (some c4msg) (some 200) c4db).1 = ConsumerAction.ack
    ∧ (process_consumer_message (some c4msg) (some 200) c4db).2 = c4db
    ∧ ((process_consumer_message (some c4msg) (some 200) c4db).2.find?
        (fun x => x.id == "m1")).map MRow.status = some "queued"
    ∧ ¬ ((process_consumer_message (some c4msg) (some 200) c4db).2.find?
        (fun x => x.id == "m1")).map MRow.status = some "sent"
    ∧ ((process_consumer_message (some c4msg) (some 200) c4db).2.find?
        (fun x => x.id == "m1")).map MRow.wamid = some none := by
  refine ⟨rfl, rfl, rfl, ?_, rfl⟩
  decide

/-- C4 amended: for every message read off the outgoing channel, the
consumer invokes the delivery call and acknowledges exactly when it
succeeds, negatively-acknowledges without requeue on delivery failure or
a malformed payload, and performs no update of the Message table in any
case. -/
theorem C4_consumer_ack_no_db_update (body : Option QueueMsg)
    (apiStatus : Option Nat) (db : List MRow) :
    (process_consumer_message body apiStatus db).2 = db
    ∧ ((process_consumer_message body apiStatus db).1 = ConsumerAction.ack ↔
        ∃ m, body = some m ∧ process_outgoing_message m apiStatus = true) := by
  cases body with
  | none => simp [process_consumer_message]
  | some m =>
    by_cases h : process_outgoing_message m apiStatus
    · simp [process_consumer_message, h]
    · simp [process_consumer_message, h]

/-- C6 (code bug, failing input), part of the evidence in one statement.
On the send route of routes/messages.py with the queue publish failing
(queue unreachable, `is_connected` ends up False), the response still
reports `queued`, the row stays `queued` and the function contains no
delivery-client call at all.  On the send route of routes/clients.py with
the queue down, the delivery client IS called inline and succeeds (HTTP
200), but the route then evaluates `result["success"]` on the boolean
result, raises TypeError before any status update, and the row likewise
stays `queued` instead of becoming `sent`. -/
theorem C6_degraded_mode_broken :
    ((routes_send_message "t6" true (some ("wa6", "+1000")) "+2000" "hi" "text"
        none "m6" ⟨false, true⟩ ⟨true, true, true⟩ []).1
      = .ok ⟨"m6", "queued", none⟩)
    ∧ (((routes_send_message "t6" true (some ("wa6", "+1000")) "+2000" "hi" "text"
        none "m6" ⟨false, true⟩ ⟨true, true, true⟩ []).2.1.find?
          (fun x => x.id == "m6")).map MRow.status = some "queued")
    ∧ ((routes_send_message "t6" true (some ("wa6", "+1000")) "+2000" "hi" "text"
        none "m6" ⟨false, true⟩ ⟨true, true, true⟩ []).2.2.is_connected = false)
    ∧ ((clients_send_message "t6" "wa6" "+1000" "+2000" "hi" "m6c" (some 200)
        ⟨false, false⟩ ⟨false, false, false⟩ []).1 = .error PyError.typeError)
    ∧ (((clients_send_message "t6" "wa6" "+1000" "+2000" "hi" "m6c" (some 200)
        ⟨false, false⟩ ⟨false, false, false⟩ []).2.1.find?
          (fun x => x.id == "m6c")).map MRow.status = some "queued") :=
  ⟨rfl, rfl, rfl, rfl, rfl⟩

/-- C8: every ScheduledMessage row reachable through the system's own
operations — creation by the schedule route, claim and dispatch of an
eligible row (including the failure handling inside the dispatch), and
cancellation — satisfies `attempts ≤ max_attempts`. -/
theorem C8_attempts_le_max (r : SRow) (h : ReachableRow r) :
    r.attempts ≤ r.max_attempts := by
  induction h with
  | created id tenant_id account_id toNumber message message_type scheduled_at tz =>
    exact Nat.zero_le _
  | claimed r now account env qs hr helig ih =>
    have h1 := process_single_message_attempts r now account env qs
    have h2 : r.attempts < r.max_attempts := ((eligible_iff now r).mp helig).2.2
    rw [h1.1, h1.2]
    omega
  | cancelRoute r hr hs ih =>
    simpa using ih

/-- Witness for C8: a freshly created row satisfies the invariant. -/
theorem C8_attempts_le_max_witness :
    (newScheduledRow "sm8" "t8" "wa8" "+1" "hi" "text" 7 "UTC").attempts
      ≤ (newScheduledRow "sm8" "t8" "wa8" "+1" "hi" "text" 7 "UTC").max_attempts :=
  C8_attempts_le_max _
    (ReachableRow.created "sm8" "t8" "wa8" "+1" "hi" "text" 7 "UTC")

/-- C9 (code bug, failing input): the ISO-8601 timestamp
"2030-01-01T00:00:00Z" — explicit timezone, far in the future — parses
to an offset-aware datetime after the route's 'Z' replacement; the
comparison `scheduled_time <= datetime.utcnow()` then raises TypeError,
which only the generic exception handler catches: the route answers 500
"Message scheduling failed" and persists nothing, where the claim
promises acceptance.  The same instant written without timezone is
accepted: the response carries the id and normalized time, and the
stored row has status `scheduled` and attempts 0. -/
theorem C9_aware_timestamp_rejected :
    (schedule_message "t9" (some "wa9") "+2000" "hi" "2030-01-01T00:00:00Z"
        "UTC" "text" (mkKey 2026 10 12 0 0 0) "sm9" []
      = (.error ⟨500, "Message scheduling failed"⟩, []))
    ∧ (schedule_message "t9" (some "wa9") "+2000" "hi" "2030-01-01T00:00:00"
        "UTC" "text" (mkKey 2026 10 12 0 0 0) "sm9" []
      = (.ok ⟨"sm9", "scheduled", ⟨mkKey 2030 1 1 0 0 0, none⟩⟩,
          [newScheduledRow "sm9" "t9" "wa9" "+2000" "hi" "text"
            (mkKey 2030 1 1 0 0 0) "UTC"]))
    ∧ (newScheduledRow "sm9" "t9" "wa9" "+2000" "hi" "text"
        (mkKey 2030 1 1 0 0 0) "UTC").status = "scheduled"
    ∧ (newScheduledRow "sm9" "t9" "wa9" "+2000" "hi" "text"
        (mkKey 2030 1 1 0 0 0) "UTC").attempts = 0 :=
  ⟨rfl, rfl, rfl, rfl⟩

/-- C10: the queue publish is total at its interface — embedded with
codomain `Bool × QState` because every exception in the source body is
caught — and either returns True, or returns False having set
`is_connected := False`; moreover whenever `ensure_connection` yields a
live channel and the broker publish does not raise, it returns True with
that connection state. -/
theorem C10_send_message_total (env : QEnv) (s : QState) :
    ((RabbitMQService.send_message env s).1 = true
      ∨ ((RabbitMQService.send_message env s).1 = false
        ∧ (RabbitMQService.send_message env s).2.is_connected = false))
    ∧ ((RabbitMQService.ensure_connection env s).has_channel = true →
        env.publishRaises = false →
        RabbitMQService.send_message env s
          = (true, RabbitMQService.ensure_connection env s)) := by
  constructor
  · by_cases h : ((RabbitMQService.ensure_connection env s).has_channel
        && !env.publishRaises) = true
    · left
      simp [RabbitMQService.send_message, h]
    · right
      constructor
      · simp [RabbitMQService.send_message, h]
      · simp [RabbitMQService.send_message, h]
  · intro h1 h2
    simp [RabbitMQService.send_message, h1, h2]

/-- Witness for C10: with a live connection and a healthy broker the
publish returns True and leaves the state untouched. -/
theorem C10_send_message_total_witness :
    RabbitMQService.send_message ⟨true, false⟩ ⟨true, true, true⟩
      = (true, (⟨true, true, true⟩ : QState)) :=
  (C10_send_message_total ⟨true, false⟩ ⟨true, true, true⟩).2 rfl rfl

end WP
